import Mathlib

/-!
Verification development for the ArUco fiducial-to-pose pipeline of
`src/video/aruco_camera.rs` (ARPianoVisualizer).

The registry and correspondence layer is embedded over `ℚ` (the `f32`/`f64`
literals of the source are exact rationals), and the pose-conversion layer
over `ℝ`.  External collaborators — OpenCV marker detection,
`calib3d::solve_pnp_ransac_def`, `calib3d::rodrigues_def`, and the rendering
engine's `Transform::look_at` — are modelled as oracle inputs or from their
documented semantics (glam matrices are column-major; OpenCV `Mat` data is
row-major; Bevy `look_to` builds an orthonormal frame from the direction and
up vectors and `Quat::from_mat3` follows glam's `from_rotation_axes`).
-/

namespace ARPV

/-- A 2-D image point (`opencv::core::Point2f`); `f32` coordinates modelled
exactly as rationals. -/
structure Point2f where
  x : ℚ
  y : ℚ
deriving DecidableEq

/-- A 3-D world point (`opencv::core::Point3d`); `f64` coordinates modelled
exactly as rationals. -/
structure Point3d where
  x : ℚ
  y : ℚ
  z : ℚ
deriving DecidableEq

/-- A fiducial registry entry (`struct FiducialPosition`, lines 46-50):
marker identifier and lateral offset from the keyboard centre in mm. -/
structure FiducialPosition where
  id : ℤ
  x_offset : ℚ
deriving DecidableEq

/-- `FIDUCIAL_SIZE` (line 84): the size of the fiducial markers in mm, 82.5. -/
def FIDUCIAL_SIZE : ℚ := 165 / 2

/-- `FiducialPosition::get_corners` (lines 70-80): the marker's 4 corners in
the order bottom-right, bottom-left, top-left, top-right, in the y = 0 plane. -/
def FiducialPosition.get_corners (self : FiducialPosition) : List Point3d :=
  let half_size := FIDUCIAL_SIZE / 2
  [⟨self.x_offset + half_size, 0, half_size⟩,
   ⟨self.x_offset - half_size, 0, half_size⟩,
   ⟨self.x_offset - half_size, 0, -half_size⟩,
   ⟨self.x_offset + half_size, 0, -half_size⟩]

/-- `FIDUCIAL_POSITIONS` (lines 85-90): the static fiducial registry. -/
def FIDUCIAL_POSITIONS : List FiducialPosition :=
  [⟨0, -105 - 280 - FIDUCIAL_SIZE / 2⟩,
   ⟨1, -105 - FIDUCIAL_SIZE / 2⟩,
   ⟨2, 105 + FIDUCIAL_SIZE / 2⟩,
   ⟨3, 105 + 280 + FIDUCIAL_SIZE / 2⟩]

/-- The registry lookup performed inside the `filter_map` of
`track_aruco_targets` (lines 181-186):
`FIDUCIAL_POSITIONS.iter().find(|f| f.id == id).map(|f| f.get_corners())`.
This is the spec's `corners_for`. -/
def corners_for (i : ℤ) : Option (List Point3d) :=
  (FIDUCIAL_POSITIONS.find? (fun f => f.id == i)).map (fun f => f.get_corners)

/-- `flat_corners` (line 160): every detection's 2-D corners, flattened in
detection order with no registry filtering. -/
def flat_corners (corners : List (List Point2f)) : List Point2f :=
  corners.flatten

/-- `fiducial_corners` (lines 181-189): the 3-D corners of the detected ids
that have a registry entry, flattened in detection order; ids without an
entry are skipped by the `filter_map`. -/
def fiducial_corners (ids : List ℤ) : List Point3d :=
  ((ids.filterMap (fun i => corners_for i)).flatten).map (fun p => ⟨p.x, p.y, p.z⟩)

/-- Bevy/glam `Vec3`; `f32` components modelled as reals. -/
structure Vec3 where
  x : ℝ
  y : ℝ
  z : ℝ

/-- A glam column-major 3×3 matrix: the three fields are the columns. -/
structure Mat3 where
  x_axis : Vec3
  y_axis : Vec3
  z_axis : Vec3

/-- A 3×3 OpenCV `Mat` as written by `calib3d::rodrigues_def`; OpenCV stores
matrices row-major, so `data_typed` yields `[r00, r01, r02, r10, r11, ...]`
where `rij` is the entry in row `i`, column `j` of the rotation matrix. -/
structure CvMat3 where
  r00 : ℝ
  r01 : ℝ
  r02 : ℝ
  r10 : ℝ
  r11 : ℝ
  r12 : ℝ
  r20 : ℝ
  r21 : ℝ
  r22 : ℝ

/-- `Mat3::from_cols_slice` applied to the row-major matrix data (line 235):
glam interprets the slice column-major, so column `j` of the glam matrix is
row `j` of the OpenCV matrix. -/
def mat3_from_cols_slice (m : CvMat3) : Mat3 :=
  ⟨⟨m.r00, m.r01, m.r02⟩, ⟨m.r10, m.r11, m.r12⟩, ⟨m.r20, m.r21, m.r22⟩⟩

/-- Componentwise negation of a glam `Vec3`. -/
def Vec3.neg (v : Vec3) : Vec3 := ⟨-v.x, -v.y, -v.z⟩

/-- Componentwise subtraction of glam `Vec3`s. -/
def Vec3.sub (a b : Vec3) : Vec3 := ⟨a.x - b.x, a.y - b.y, a.z - b.z⟩

/-- glam `Mat3 * Vec3`: the linear combination of the columns. -/
def Mat3.mulVec (m : Mat3) (v : Vec3) : Vec3 :=
  ⟨m.x_axis.x * v.x + m.y_axis.x * v.y + m.z_axis.x * v.z,
   m.x_axis.y * v.x + m.y_axis.y * v.y + m.z_axis.y * v.z,
   m.x_axis.z * v.x + m.y_axis.z * v.y + m.z_axis.z * v.z⟩

/-- glam `Mat3::transpose`. -/
def Mat3.transpose (m : Mat3) : Mat3 :=
  ⟨⟨m.x_axis.x, m.y_axis.x, m.z_axis.x⟩,
   ⟨m.x_axis.y, m.y_axis.y, m.z_axis.y⟩,
   ⟨m.x_axis.z, m.y_axis.z, m.z_axis.z⟩⟩

/-- glam `Vec3::cross`. -/
def Vec3.cross (a b : Vec3) : Vec3 :=
  ⟨a.y * b.z - a.z * b.y, a.z * b.x - a.x * b.z, a.x * b.y - a.y * b.x⟩

/-- glam `Vec3::length` over exact reals. -/
noncomputable def Vec3.length (v : Vec3) : ℝ :=
  Real.sqrt (v.x * v.x + v.y * v.y + v.z * v.z)

/-- Scaling of a glam `Vec3` by a scalar. -/
def Vec3.smul (v : Vec3) (c : ℝ) : Vec3 := ⟨v.x * c, v.y * c, v.z * c⟩

/-- glam `Vec3::try_normalize` over exact reals: `none` exactly when the
length is zero (the floating `is_finite` guard cannot fire over `ℝ`). -/
noncomputable def Vec3.try_normalize (v : Vec3) : Option Vec3 :=
  if 0 < v.length then some (v.smul (1 / v.length)) else none

/-- glam `Vec3::any_orthonormal_vector` (the fallback branch of `look_to`
when the cross product degenerates); `signum 0 = 1` as for `f32`. -/
noncomputable def Vec3.any_orthonormal_vector (v : Vec3) : Vec3 :=
  let sign : ℝ := if v.z < 0 then -1 else 1
  let a := -1 / (sign + v.z)
  let b := v.x * v.y * a
  ⟨b, sign + v.y * v.y * a, -v.y⟩

/-- A glam quaternion with components `(x, y, z, w)`. -/
structure Quat where
  x : ℝ
  y : ℝ
  z : ℝ
  w : ℝ

/-- glam `Quat::from_mat3` (`from_rotation_axes`): branch on the largest
squared component, divide the off-diagonal sums by the corresponding square
root.  `mij` is component `j` of axis (column) `i`. -/
noncomputable def Quat.from_mat3 (m : Mat3) : Quat :=
  let m00 := m.x_axis.x
  let m01 := m.x_axis.y
  let m02 := m.x_axis.z
  let m10 := m.y_axis.x
  let m11 := m.y_axis.y
  let m12 := m.y_axis.z
  let m20 := m.z_axis.x
  let m21 := m.z_axis.y
  let m22 := m.z_axis.z
  if m22 ≤ 0 then
    let dif10 := m11 - m00
    let omm22 := 1 - m22
    if dif10 ≤ 0 then
      let four_xsq := omm22 - dif10
      let inv4x := (1 / 2) / Real.sqrt four_xsq
      ⟨four_xsq * inv4x, (m01 + m10) * inv4x, (m02 + m20) * inv4x, (m12 - m21) * inv4x⟩
    else
      let four_ysq := omm22 + dif10
      let inv4y := (1 / 2) / Real.sqrt four_ysq
      ⟨(m01 + m10) * inv4y, four_ysq * inv4y, (m12 + m21) * inv4y, (m20 - m02) * inv4y⟩
  else
    let sum10 := m11 + m00
    let opm22 := 1 + m22
    if sum10 ≤ 0 then
      let four_zsq := opm22 - sum10
      let inv4z := (1 / 2) / Real.sqrt four_zsq
      ⟨(m02 + m20) * inv4z, (m12 + m21) * inv4z, four_zsq * inv4z, (m01 - m10) * inv4z⟩
    else
      let four_wsq := opm22 + sum10
      let inv4w := (1 / 2) / Real.sqrt four_wsq
      ⟨(m12 - m21) * inv4w, (m20 - m02) * inv4w, (m01 - m10) * inv4w, four_wsq * inv4w⟩

/-- The Bevy `Transform` restricted to the two fields the tracking system
touches (the scale is never read or written by it). -/
structure Transform where
  translation : Vec3
  rotation : Quat

/-- Bevy `Transform::look_to`: the rotation becomes the orthonormal frame
built from the direction and up vectors; the translation is untouched. -/
noncomputable def Transform.look_to (t : Transform) (direction up : Vec3) : Transform :=
  let back := Vec3.neg ((Vec3.try_normalize direction).getD ⟨0, 0, -1⟩)
  let u := (Vec3.try_normalize up).getD ⟨0, 1, 0⟩
  let right := (Vec3.try_normalize (Vec3.cross u back)).getD (Vec3.any_orthonormal_vector u)
  let u2 := Vec3.cross back right
  { t with rotation := Quat.from_mat3 ⟨right, u2, back⟩ }

/-- Bevy `Transform::look_at` (line 251 calls it with `Vec3::ZERO, Vec3::Y`). -/
noncomputable def Transform.look_at (t : Transform) (target up : Vec3) : Transform :=
  t.look_to (Vec3.sub target t.translation) up

/-- `DEBUG_POINTS` (line 8). -/
def DEBUG_POINTS : Bool := false

/-- Line 235: the glam matrix loaded from the Rodrigues output data
(`rotation_matrix` in the source after the `from_cols_slice` call). -/
def rotation_matrix_of (rdata : CvMat3) : Mat3 :=
  mat3_from_cols_slice rdata

/-- Line 238: `rotation_matrix.transpose()` (`rotation_matrix_inverse`). -/
def rotation_matrix_inverse_of (rdata : CvMat3) : Mat3 :=
  (rotation_matrix_of rdata).transpose

/-- Lines 240-244: `-rotation_matrix_inverse * translation` followed by the
OpenCV-to-Bevy conversion that negates the `y` component (the `f64` to `f32`
casts are exact here). -/
def translation_inverse_of (rdata : CvMat3) (t : Vec3) : Vec3 :=
  let ti := Vec3.neg ((rotation_matrix_inverse_of rdata).mulVec t)
  ⟨ti.x, -ti.y, ti.z⟩

/-- Lines 229-255 for the scene's single camera: when `DEBUG_POINTS` is not
set, the transform's translation and rotation are assigned the converted pose
and then `look_at(Vec3::ZERO, Vec3::Y)` is applied; when it is set the
transform is left alone. -/
noncomputable def publish_transform (rdata : CvMat3) (tvec : Vec3) (prev : Transform) : Transform :=
  if DEBUG_POINTS then prev
  else
    Transform.look_at
      ⟨translation_inverse_of rdata tvec, Quat.from_mat3 (rotation_matrix_inverse_of rdata)⟩
      ⟨0, 0, 0⟩ ⟨0, 1, 0⟩

/-- The per-frame outcome, one constructor per early-return or success branch
of `track_aruco_targets`; `solveCrash` models the `.expect` panic on a solver
`Err` (which also leaves the transform unwritten). -/
inductive TrackOutcome where
  | acquisitionEmpty
  | noTargets
  | correspondenceMismatch
  | solveFailed
  | solveCrash
  | published
deriving DecidableEq

/-- The persistent state: the `latest_rotation` / `latest_translation` buffers
of `ArucoTrackingData` (lines 26-27) plus the published camera transform of
the single `Camera3d` spawned in `setup`. -/
structure TrackingState where
  latest_rotation : Vec3
  latest_translation : Vec3
  transform : Transform

/-- The behaviour of one `calib3d::solve_pnp_ransac_def` call: `retval = none`
models an `Err` (the `.expect` panics), `some b` the boolean return; `rvec`
and `tvec` are what the call writes into the two output buffers. -/
structure SolverResult where
  retval : Option Bool
  rvec : Vec3
  tvec : Vec3

/-- A pose solver oracle: the external collaborator invoked at line 216. -/
abbrev Solver := List Point3d → List Point2f → SolverResult

/-- A Rodrigues oracle: the `calib3d::rodrigues_def` collaborator of line 233,
returning the row-major rotation-matrix data for a rotation vector. -/
abbrev Rodrigues := Vec3 → CvMat3

/-- One frame's external input: whether the webcam frame was empty, and the
detector's `ids` and `corners` output for the frame (the detector writes one
corner list per id, in the same order). -/
structure FrameInput where
  frame_empty : Bool
  ids : List ℤ
  corners : List (List Point2f)

/-- Lines 141-216: the exact argument pair handed to the pose solver for a
frame, or `none` when an earlier guard abandons the frame first. -/
def solve_args (inp : FrameInput) : Option (List Point3d × List Point2f) :=
  if inp.frame_empty then none
  else if inp.ids.length = 0 then none
  else
    let flat := flat_corners inp.corners
    let fid := fiducial_corners inp.ids
    if fid.length ≠ flat.length then none
    else some (fid, flat)

/-- Lines 216-255: the solve-and-publish tail of a frame.  The solver writes
the rotation and translation buffers; on `Err` the `.expect` panics, on
`false` the frame is abandoned, on `true` the converted pose is published. -/
noncomputable def solve_and_publish (solver : Solver) (rodr : Rodrigues)
    (world_points : List Point3d) (image_points : List Point2f)
    (s : TrackingState) : TrackOutcome × TrackingState :=
  let r := solver world_points image_points
  let s1 : TrackingState := ⟨r.rvec, r.tvec, s.transform⟩
  match r.retval with
  | none => (TrackOutcome.solveCrash, s1)
  | some false => (TrackOutcome.solveFailed, s1)
  | some true =>
      (TrackOutcome.published,
       ⟨r.rvec, r.tvec, publish_transform (rodr r.rvec) r.tvec s1.transform⟩)

/-- `track_aruco_targets` (lines 120-256): the per-frame controller.  The
greyscale conversion and the detector run between the first two guards; both
are external and are reflected in `FrameInput`. -/
noncomputable def track_aruco_targets (solver : Solver) (rodr : Rodrigues)
    (inp : FrameInput) (s : TrackingState) : TrackOutcome × TrackingState :=
  if inp.frame_empty then (TrackOutcome.acquisitionEmpty, s)
  else if inp.ids.length = 0 then (TrackOutcome.noTargets, s)
  else
    let flat := flat_corners inp.corners
    let fid := fiducial_corners inp.ids
    if fid.length ≠ flat.length then (TrackOutcome.correspondenceMismatch, s)
    else solve_and_publish solver rodr fid flat s

/-- Modelled from the spec: section 4.4 steps 2-3 applied to the mathematical
(row-major) rotation matrix `R` written by Rodrigues — the inverse translation
`-Rᵗ·t`, with the vertical (`y`) component then negated.  Used only to compare
the source's conversion against the claimed formula. -/
def spec_inverse_translation (m : CvMat3) (t : Vec3) : Vec3 :=
  let rt : Vec3 :=
    ⟨m.r00 * t.x + m.r10 * t.y + m.r20 * t.z,
     m.r01 * t.x + m.r11 * t.y + m.r21 * t.z,
     m.r02 * t.x + m.r12 * t.y + m.r22 * t.z⟩
  ⟨-rt.x, -(-rt.y), -rt.z⟩

/-- Determinant of a row-major 3×3 matrix; used to state the degenerate-pose
claims (the source computes no determinant). -/
def CvMat3.det (m : CvMat3) : ℝ :=
  m.r00 * (m.r11 * m.r22 - m.r12 * m.r21)
  - m.r01 * (m.r10 * m.r22 - m.r12 * m.r20)
  + m.r02 * (m.r10 * m.r21 - m.r11 * m.r20)

/-- Unit-square test corners standing in for one detection's 4 corners. -/
def testCorners : List Point2f := [⟨0, 0⟩, ⟨1, 0⟩, ⟨1, 1⟩, ⟨0, 1⟩]

/-- A solver oracle that always succeeds with the zero pose. -/
noncomputable def constSolver : Solver :=
  fun _ _ => ⟨some true, ⟨0, 0, 0⟩, ⟨0, 0, 0⟩⟩

/-- Identity rotation data: the Rodrigues matrix of the zero rotation vector. -/
noncomputable def cvIdentity : CvMat3 := ⟨1, 0, 0, 0, 1, 0, 0, 0, 1⟩

/-- A Rodrigues oracle returning the identity matrix. -/
noncomputable def constRodr : Rodrigues := fun _ => cvIdentity

/-- The Rodrigues matrix of the rotation vector `(0, 0, π/2)`: a 90-degree
rotation about `z`, row-major data `[0, -1, 0, 1, 0, 0, 0, 0, 1]`. -/
noncomputable def cvRz90 : CvMat3 := ⟨0, -1, 0, 1, 0, 0, 0, 0, 1⟩

/-- diag(1, 1, -1): a reflected matrix with determinant -1. -/
noncomputable def cvReflect : CvMat3 := ⟨1, 0, 0, 0, 1, 0, 0, 0, -1⟩

/-- A Rodrigues oracle returning the reflected matrix. -/
noncomputable def reflectRodr : Rodrigues := fun _ => cvReflect

/-- A solver oracle that succeeds with rotation vector zero and translation
`(0, 0, 1)`. -/
noncomputable def solverZ1 : Solver :=
  fun _ _ => ⟨some true, ⟨0, 0, 0⟩, ⟨0, 0, 1⟩⟩

/-- A concrete starting state with the zero pose and identity orientation. -/
noncomputable def s0 : TrackingState :=
  ⟨⟨0, 0, 0⟩, ⟨0, 0, 0⟩, ⟨⟨0, 0, 0⟩, ⟨0, 0, 0, 1⟩⟩⟩

/-- A registered lookup always yields exactly 4 corner points. -/
theorem corners_for_length {i : ℤ} {l : List Point3d} (h : corners_for i = some l) :
    l.length = 4 := by
  unfold corners_for at h
  cases hf : FIDUCIAL_POSITIONS.find? (fun f => f.id == i) with
  | none => rw [hf] at h; simp at h
  | some f =>
      rw [hf] at h
      have hl : f.get_corners = l := by simpa using h
      rw [← hl]
      rfl

/-- The 3-D correspondence list contributes exactly 4 points per registered
detection. -/
theorem fiducial_corners_length (ids : List ℤ) :
    (fiducial_corners ids).length = 4 * (ids.filterMap (fun i => corners_for i)).length := by
  induction ids with
  | nil => rfl
  | cons i tl ih =>
      cases h : corners_for i with
      | none =>
          have he : fiducial_corners (i :: tl) = fiducial_corners tl := by
            unfold fiducial_corners
            rw [List.filterMap_cons, h]
          rw [he, ih, List.filterMap_cons, h]
      | some l =>
          have h4 : l.length = 4 := corners_for_length h
          have he : (fiducial_corners (i :: tl)).length = l.length + (fiducial_corners tl).length := by
            unfold fiducial_corners
            rw [List.filterMap_cons, h]
            simp
          rw [he, ih, List.filterMap_cons, h, h4]
          simp [Nat.mul_succ]
          omega

/-- When every detection carries exactly 4 corners, the flattened 2-D list has
4 points per detection. -/
theorem flat_corners_length (corners : List (List Point2f))
    (h4 : ∀ c ∈ corners, c.length = 4) :
    (flat_corners corners).length = 4 * corners.length := by
  induction corners with
  | nil => rfl
  | cons c tl ih =>
      have hc : c.length = 4 := h4 c (by simp)
      have ih2 := ih (fun d hd => h4 d (by simp [hd]))
      unfold flat_corners at ih2 ⊢
      simp [hc, ih2, Nat.mul_succ]
      omega

/-- Mapping an element to `none` makes `filterMap` strictly shorter. -/
theorem filterMap_length_lt {α β : Type} (f : α → Option β) :
    ∀ (l : List α) (a : α), a ∈ l → f a = none → (l.filterMap f).length < l.length := by
  intro l
  induction l with
  | nil => intro a ha; cases ha
  | cons b tl ih =>
      intro a ha hf
      rw [List.filterMap_cons]
      rcases List.mem_cons.mp ha with hb | htl
      · subst hb
        rw [hf]
        calc (tl.filterMap f).length ≤ tl.length := List.length_filterMap_le f tl
        _ < tl.length + 1 := Nat.lt_succ_self _
      · cases hfb : f b with
        | none =>
            calc (tl.filterMap f).length < tl.length := ih a htl hf
            _ < tl.length + 1 := Nat.lt_succ_self _
        | some v =>
            simpa using Nat.succ_lt_succ (ih a htl hf)

/-- Case analysis for one frame of the controller: exactly one of the three
pre-solve guards fires, or the frame reaches the solve stage with the two
correspondence lists as arguments. -/
theorem track_cases (solver : Solver) (rodr : Rodrigues) (inp : FrameInput)
    (s : TrackingState) :
    (inp.frame_empty = true
      ∧ track_aruco_targets solver rodr inp s = (TrackOutcome.acquisitionEmpty, s))
    ∨ (inp.frame_empty = false ∧ inp.ids.length = 0
      ∧ track_aruco_targets solver rodr inp s = (TrackOutcome.noTargets, s))
    ∨ (inp.frame_empty = false ∧ inp.ids.length ≠ 0
      ∧ (fiducial_corners inp.ids).length ≠ (flat_corners inp.corners).length
      ∧ track_aruco_targets solver rodr inp s = (TrackOutcome.correspondenceMismatch, s))
    ∨ (inp.frame_empty = false ∧ inp.ids.length ≠ 0
      ∧ (fiducial_corners inp.ids).length = (flat_corners inp.corners).length
      ∧ track_aruco_targets solver rodr inp s
          = solve_and_publish solver rodr (fiducial_corners inp.ids) (flat_corners inp.corners) s) := by
  by_cases h1 : inp.frame_empty
  · exact Or.inl ⟨h1, by simp [track_aruco_targets, h1]⟩
  · by_cases h2 : inp.ids.length = 0
    · exact Or.inr (Or.inl ⟨by simpa using h1, h2, by simp [track_aruco_targets, h1, h2]⟩)
    · by_cases h3 : (fiducial_corners inp.ids).length ≠ (flat_corners inp.corners).length
      · exact Or.inr (Or.inr (Or.inl
          ⟨by simpa using h1, h2, h3, by simp [track_aruco_targets, h1, h2, h3]⟩))
      · refine Or.inr (Or.inr (Or.inr
          ⟨by simpa using h1, h2, by simpa using h3, ?_⟩))
        simp [track_aruco_targets, h1, h2, h3]

/-- Case analysis for the solve-and-publish tail: panic, failure, or publish,
with the states written in each case. -/
theorem solve_and_publish_cases (solver : Solver) (rodr : Rodrigues)
    (w : List Point3d) (i2 : List Point2f) (s : TrackingState) :
    ((solver w i2).retval = none
      ∧ solve_and_publish solver rodr w i2 s
          = (TrackOutcome.solveCrash, ⟨(solver w i2).rvec, (solver w i2).tvec, s.transform⟩))
    ∨ ((solver w i2).retval = some false
      ∧ solve_and_publish solver rodr w i2 s
          = (TrackOutcome.solveFailed, ⟨(solver w i2).rvec, (solver w i2).tvec, s.transform⟩))
    ∨ ((solver w i2).retval = some true
      ∧ solve_and_publish solver rodr w i2 s
          = (TrackOutcome.published,
             ⟨(solver w i2).rvec, (solver w i2).tvec,
              publish_transform (rodr (solver w i2).rvec) (solver w i2).tvec s.transform⟩)) := by
  rcases hr : (solver w i2).retval with _ | b
  · exact Or.inl ⟨rfl, by simp [solve_and_publish, hr]⟩
  · cases b
    · exact Or.inr (Or.inl ⟨rfl, by simp [solve_and_publish, hr]⟩)
    · exact Or.inr (Or.inr ⟨rfl, by simp [solve_and_publish, hr]⟩)

/-- The published transform never reads the previous transform: with
`DEBUG_POINTS` unset the body overwrites translation and rotation before the
`look_at` call. -/
theorem publish_transform_prev_free (rdata : CvMat3) (tvec : Vec3) (p q : Transform) :
    publish_transform rdata tvec p = publish_transform rdata tvec q := rfl

/-- When the solver arguments exist, the frame's result is exactly the
solve-and-publish tail on those arguments. -/
theorem track_reaches_solve {inp : FrameInput} {w : List Point3d} {i2 : List Point2f}
    (hs : solve_args inp = some (w, i2)) (solver : Solver) (rodr : Rodrigues)
    (s : TrackingState) :
    track_aruco_targets solver rodr inp s = solve_and_publish solver rodr w i2 s := by
  unfold solve_args at hs
  by_cases h1 : inp.frame_empty
  · simp [h1] at hs
  · by_cases h2 : inp.ids.length = 0
    · simp [h1, h2] at hs
    · by_cases h3 : (fiducial_corners inp.ids).length ≠ (flat_corners inp.corners).length
      · simp [h1, h2, h3] at hs
      · simp [h1, h2, h3] at hs
        obtain ⟨hw, hi⟩ := hs
        rw [← hw, ← hi]
        simp [track_aruco_targets, h1, h2, h3]

/-- A vector whose squared length is 1 normalizes to itself. -/
theorem try_normalize_unit (x y z : ℝ) (h : x * x + y * y + z * z = 1) :
    Vec3.try_normalize ⟨x, y, z⟩ = some ⟨x, y, z⟩ := by
  have hl : Vec3.length ⟨x, y, z⟩ = 1 := by
    show Real.sqrt (x * x + y * y + z * z) = 1
    rw [h, Real.sqrt_one]
  unfold Vec3.try_normalize
  rw [hl, if_pos one_pos]
  simp [Vec3.smul]

/-- Evaluation of `Quat.from_mat3` at the identity matrix: the identity
quaternion. -/
theorem from_mat3_id :
    Quat.from_mat3 ⟨⟨1, 0, 0⟩, ⟨0, 1, 0⟩, ⟨0, 0, 1⟩⟩ = ⟨0, 0, 0, 1⟩ := by
  have h4 : Real.sqrt 4 = 2 := by
    rw [show (4 : ℝ) = 2 ^ 2 by norm_num]
    exact Real.sqrt_sq (by norm_num)
  norm_num [Quat.from_mat3, h4]

/-- The `y` component of `Quat.from_mat3` at the look-at frame produced for a
camera at `(-1, 0, 0)` looking at the origin. -/
theorem from_mat3_look_y :
    (Quat.from_mat3 ⟨⟨0, 0, 1⟩, ⟨0, 1, 0⟩, ⟨-1, 0, 0⟩⟩).y = 1 / Real.sqrt 2 := by
  norm_num [Quat.from_mat3]
  ring

/-- Evaluation of `Transform.look_to` for direction `(1, 0, 0)` and up
`(0, 1, 0)`: the translation is kept and the rotation becomes the quaternion
of the frame `(right, up, back) = ((0,0,1), (0,1,0), (-1,0,0))`. -/
theorem look_to_unitx (t : Transform) :
    Transform.look_to t ⟨1, 0, 0⟩ ⟨0, 1, 0⟩
      = { t with rotation := Quat.from_mat3 ⟨⟨0, 0, 1⟩, ⟨0, 1, 0⟩, ⟨-1, 0, 0⟩⟩ } := by
  simp only [Transform.look_to]
  rw [try_normalize_unit 1 0 0 (by norm_num), try_normalize_unit 0 1 0 (by norm_num)]
  norm_num [Vec3.neg, Vec3.cross, Option.getD]
  rw [try_normalize_unit 0 0 1 (by norm_num)]
  norm_num [Vec3.cross, Option.getD]

/-- Evaluation of `Transform.look_at` for a camera at `(-1, 0, 0)` told to
look at the origin with up `(0, 1, 0)`. -/
theorem look_at_origin_from_neg_x (q : Quat) :
    Transform.look_at ⟨⟨-1, 0, 0⟩, q⟩ ⟨0, 0, 0⟩ ⟨0, 1, 0⟩
      = ⟨⟨-1, 0, 0⟩, Quat.from_mat3 ⟨⟨0, 0, 1⟩, ⟨0, 1, 0⟩, ⟨-1, 0, 0⟩⟩⟩ := by
  unfold Transform.look_at
  have hdir : Vec3.sub ⟨0, 0, 0⟩ (Transform.mk ⟨-1, 0, 0⟩ q).translation = ⟨1, 0, 0⟩ := by
    norm_num [Vec3.sub]
  rw [hdir, look_to_unitx]

/-- C4: the pose frame converter does not compute `-Rᵗ·t`.  At the Rodrigues
matrix of rvec `(0, 0, π/2)` with tvec `(0, 1, 0)`, the source's converted
translation is `(1, 0, 0)` while the claimed formula (inverse translation
`-Rᵗ·t`, then `y` negated) yields `(-1, 0, 0)`; the column-major
`from_cols_slice` load of the row-major Rodrigues data transposes `R`, so the
source's `rotation_matrix_inverse` acts as `R` (sending `e₁` to `(0, 1, 0)`),
not as `Rᵗ`. -/
theorem c4_layout_divergence :
    translation_inverse_of cvRz90 ⟨0, 1, 0⟩ = ⟨1, 0, 0⟩
    ∧ spec_inverse_translation cvRz90 ⟨0, 1, 0⟩ = ⟨-1, 0, 0⟩
    ∧ Mat3.mulVec (rotation_matrix_inverse_of cvRz90) ⟨1, 0, 0⟩ = ⟨0, 1, 0⟩
    ∧ translation_inverse_of cvRz90 ⟨0, 1, 0⟩ ≠ spec_inverse_translation cvRz90 ⟨0, 1, 0⟩ := by
  have h1 : translation_inverse_of cvRz90 ⟨0, 1, 0⟩ = ⟨1, 0, 0⟩ := by
    norm_num [translation_inverse_of, rotation_matrix_inverse_of, rotation_matrix_of,
      mat3_from_cols_slice, Mat3.transpose, Mat3.mulVec, Vec3.neg, cvRz90]
  have h2 : spec_inverse_translation cvRz90 ⟨0, 1, 0⟩ = ⟨-1, 0, 0⟩ := by
    norm_num [spec_inverse_translation, cvRz90]
  have h3 : Mat3.mulVec (rotation_matrix_inverse_of cvRz90) ⟨1, 0, 0⟩ = ⟨0, 1, 0⟩ := by
    norm_num [rotation_matrix_inverse_of, rotation_matrix_of, mat3_from_cols_slice,
      Mat3.transpose, Mat3.mulVec, cvRz90]
  refine ⟨h1, h2, h3, ?_⟩
  rw [h1, h2]
  norm_num

/-- C5 (counterexample): with a successful solve whose rotation data is the
reflected matrix diag(1, 1, -1) — determinant -1 — the frame is still
published and the camera transform does not keep its previous value: no
degenerate-pose rejection exists in the source. -/
theorem c5_published_despite_reflection :
    CvMat3.det cvReflect = -1
    ∧ (track_aruco_targets solverZ1 reflectRodr ⟨false, [1], [testCorners]⟩ s0).1
        = TrackOutcome.published
    ∧ ((track_aruco_targets solverZ1 reflectRodr ⟨false, [1], [testCorners]⟩ s0).2).transform.translation
        ≠ s0.transform.translation := by
  refine ⟨by norm_num [CvMat3.det, cvReflect], rfl, ?_⟩
  have ht : ((track_aruco_targets solverZ1 reflectRodr ⟨false, [1], [testCorners]⟩ s0).2).transform.translation
      = translation_inverse_of cvReflect ⟨0, 0, 1⟩ := rfl
  rw [ht]
  norm_num [translation_inverse_of, rotation_matrix_inverse_of, rotation_matrix_of,
    mat3_from_cols_slice, Mat3.transpose, Mat3.mulVec, Vec3.neg, cvReflect, s0]

/-- C5 (amended): the convert stage performs no orthogonality or determinant
validation and no degenerate-pose outcome exists; whenever the guards pass
and the solver reports success, the converted pose is published whatever
rotation matrix the Rodrigues oracle produced — including a reflected one
with determinant -1. -/
theorem c5_amended_no_validation (solver : Solver) (rodr : Rodrigues) (inp : FrameInput)
    (s : TrackingState) (w : List Point3d) (i2 : List Point2f)
    (hs : solve_args inp = some (w, i2))
    (hok : (solver w i2).retval = some true) :
    (track_aruco_targets solver rodr inp s).1 = TrackOutcome.published
    ∧ ((track_aruco_targets solver rodr inp s).2).transform
        = publish_transform (rodr (solver w i2).rvec) (solver w i2).tvec s.transform := by
  have htr := track_reaches_solve hs solver rodr s
  rcases solve_and_publish_cases solver rodr w i2 s with ⟨hr, he⟩ | ⟨hr, he⟩ | ⟨hr, he⟩
  · rw [hr] at hok; simp at hok
  · rw [hr] at hok; simp at hok
  · rw [htr, he]
    exact ⟨rfl, rfl⟩

/-- Witness for C5 (amended) at the reflected matrix: the frame with one
registered detection is published and the transform is set to the converted
pose of diag(1, 1, -1). -/
theorem c5_amended_no_validation_witness :
    (track_aruco_targets solverZ1 reflectRodr ⟨false, [1], [testCorners]⟩ s0).1
        = TrackOutcome.published
    ∧ ((track_aruco_targets solverZ1 reflectRodr ⟨false, [1], [testCorners]⟩ s0).2).transform
        = publish_transform cvReflect ⟨0, 0, 1⟩ s0.transform :=
  c5_amended_no_validation solverZ1 reflectRodr ⟨false, [1], [testCorners]⟩ s0
    (fiducial_corners [1]) (flat_corners [testCorners]) rfl rfl

/-- C3: the published transform is not exactly the converter's result.  At
the identity Rodrigues matrix with tvec `(1, 0, 0)` the published translation
does equal the converter's inverse translation, but the published orientation
is overwritten by the `look_at(Vec3::ZERO, Vec3::Y)` call (marked "Temporary"
in the source) and differs from the converter's quaternion. -/
theorem c3_look_at_overrides_orientation :
    (publish_transform cvIdentity ⟨1, 0, 0⟩ s0.transform).translation
        = translation_inverse_of cvIdentity ⟨1, 0, 0⟩
    ∧ (publish_transform cvIdentity ⟨1, 0, 0⟩ s0.transform).rotation
        ≠ Quat.from_mat3 (rotation_matrix_inverse_of cvIdentity) := by
  constructor
  · rfl
  · have hid : rotation_matrix_inverse_of cvIdentity = ⟨⟨1, 0, 0⟩, ⟨0, 1, 0⟩, ⟨0, 0, 1⟩⟩ := rfl
    have hti : translation_inverse_of cvIdentity ⟨1, 0, 0⟩ = ⟨-1, 0, 0⟩ := by
      norm_num [translation_inverse_of, rotation_matrix_inverse_of, rotation_matrix_of,
        mat3_from_cols_slice, Mat3.transpose, Mat3.mulVec, Vec3.neg, cvIdentity]
    have hpub : publish_transform cvIdentity ⟨1, 0, 0⟩ s0.transform
        = Transform.look_at
            ⟨translation_inverse_of cvIdentity ⟨1, 0, 0⟩,
             Quat.from_mat3 (rotation_matrix_inverse_of cvIdentity)⟩
            ⟨0, 0, 0⟩ ⟨0, 1, 0⟩ := rfl
    rw [hpub, hti, hid, from_mat3_id, look_at_origin_from_neg_x]
    intro hcontra
    have hy := congrArg Quat.y hcontra
    dsimp only at hy
    rw [from_mat3_look_y] at hy
    have h2 : (0 : ℝ) < Real.sqrt 2 := Real.sqrt_pos.mpr (by norm_num)
    exact one_div_ne_zero (ne_of_gt h2) hy

/-- C1 (counterexample): a batch with the single unregistered id 99 keeps the
detection's 4 corners in the flattened 2-D sequence while its 3-D corners are
absent, so the two post-filter sequences do not have equal length: the
detection is not dropped from the 2-D side. -/
theorem c1_unfiltered_2d_corners :
    corners_for 99 = none
    ∧ flat_corners [testCorners] = testCorners
    ∧ (fiducial_corners [99]).length = 0
    ∧ (flat_corners [testCorners]).length ≠ (fiducial_corners [99]).length := by
  decide

/-- C1 (amended): a detection with an unregistered identifier is excluded from
the 3-D sequence only; its 2-D corners remain in the flattened 2-D sequence,
so a batch containing such a detection (with 4 corners per detection) yields a
strictly shorter 3-D sequence, and the frame is abandoned at the
length-mismatch guard with no pose update. -/
theorem c1_amended_drop_3d_only (ids : List ℤ) (corners : List (List Point2f))
    (hlen : corners.length = ids.length)
    (h4 : ∀ c ∈ corners, c.length = 4)
    (i : ℤ) (hi : i ∈ ids) (hnone : corners_for i = none) :
    (fiducial_corners ids).length < (flat_corners corners).length
    ∧ ∀ (solver : Solver) (rodr : Rodrigues) (s : TrackingState),
        track_aruco_targets solver rodr ⟨false, ids, corners⟩ s
          = (TrackOutcome.correspondenceMismatch, s) := by
  have hflat : (flat_corners corners).length = 4 * ids.length := by
    rw [flat_corners_length corners h4, hlen]
  have hlt : (ids.filterMap (fun j => corners_for j)).length < ids.length :=
    filterMap_length_lt _ ids i hi hnone
  have hmain : (fiducial_corners ids).length < (flat_corners corners).length := by
    rw [hflat, fiducial_corners_length ids]
    omega
  refine ⟨hmain, ?_⟩
  intro solver rodr s
  have hne : ids.length ≠ 0 := by
    intro h0
    rw [List.length_eq_zero] at h0
    subst h0
    cases hi
  have hmm : (fiducial_corners ids).length ≠ (flat_corners corners).length := Nat.ne_of_lt hmain
  simp [track_aruco_targets, hne, hmm]

/-- Witness for C1 (amended) at the unregistered id 99 with one detection. -/
theorem c1_amended_drop_3d_only_witness :
    (fiducial_corners [99]).length < (flat_corners [testCorners]).length
    ∧ track_aruco_targets constSolver constRodr ⟨false, [99], [testCorners]⟩ s0
        = (TrackOutcome.correspondenceMismatch, s0) :=
  ⟨(c1_amended_drop_3d_only [99] [testCorners] rfl (by decide) 99 (by decide) rfl).1,
   (c1_amended_drop_3d_only [99] [testCorners] rfl (by decide) 99 (by decide) rfl).2
      constSolver constRodr s0⟩

/-- C2: on every per-frame failure (empty frame, zero detections,
correspondence length mismatch, solver returning false, solver error) the
published camera transform keeps its previous value, and on a fully
successful frame it is set exactly once, to the single converted pose of the
solver's outputs. -/
theorem c2_transform_sticky (solver : Solver) (rodr : Rodrigues) (inp : FrameInput)
    (s : TrackingState) :
    ((track_aruco_targets solver rodr inp s).1 ≠ TrackOutcome.published →
      ((track_aruco_targets solver rodr inp s).2).transform = s.transform)
    ∧ ((track_aruco_targets solver rodr inp s).1 = TrackOutcome.published →
      ∃ w i2, solve_args inp = some (w, i2)
        ∧ ((track_aruco_targets solver rodr inp s).2).transform
            = publish_transform (rodr (solver w i2).rvec) (solver w i2).tvec s.transform) := by
  rcases track_cases solver rodr inp s with ⟨h1, he⟩ | ⟨h1, h2, he⟩ | ⟨h1, h2, h3, he⟩ | ⟨h1, h2, h3, he⟩
  · rw [he]; exact ⟨fun _ => rfl, fun h => by simp at h⟩
  · rw [he]; exact ⟨fun _ => rfl, fun h => by simp at h⟩
  · rw [he]; exact ⟨fun _ => rfl, fun h => by simp at h⟩
  · have hs : solve_args inp = some (fiducial_corners inp.ids, flat_corners inp.corners) := by
      simp [solve_args, h1, h2, h3]
    rcases solve_and_publish_cases solver rodr (fiducial_corners inp.ids) (flat_corners inp.corners) s
      with ⟨hr, hp⟩ | ⟨hr, hp⟩ | ⟨hr, hp⟩
    · rw [he, hp]; exact ⟨fun _ => rfl, fun h => by simp at h⟩
    · rw [he, hp]; exact ⟨fun _ => rfl, fun h => by simp at h⟩
    · rw [he, hp]
      exact ⟨fun hne => absurd rfl hne, fun _ => ⟨_, _, hs, rfl⟩⟩

/-- Witness for C2 at an empty frame: the transform is unchanged. -/
theorem c2_transform_sticky_witness :
    ((track_aruco_targets constSolver constRodr ⟨true, [], []⟩ s0).2).transform = s0.transform :=
  (c2_transform_sticky constSolver constRodr ⟨true, [], []⟩ s0).1 (by decide)

/-- C6 (counterexample): a frame whose only detection has the unregistered
id 99 is reported as a correspondence mismatch, not as the no-targets
outcome the claim requires. -/
theorem c6_mismatch_not_no_targets :
    (track_aruco_targets constSolver constRodr ⟨false, [99], [testCorners]⟩ s0).1
        = TrackOutcome.correspondenceMismatch
    ∧ (track_aruco_targets constSolver constRodr ⟨false, [99], [testCorners]⟩ s0).1
        ≠ TrackOutcome.noTargets :=
  ⟨rfl, by decide⟩

/-- C6 (amended): a frame with zero detections is reported `noTargets` with
the state unchanged; a frame whose detections all have unregistered
identifiers yields an empty 3-D correspondence list but keeps every 2-D
corner, and is reported `correspondenceMismatch` (not `noTargets`), again
with the state unchanged. -/
theorem c6_amended_outcomes :
    (∀ (solver : Solver) (rodr : Rodrigues) (inp : FrameInput) (s : TrackingState),
        inp.frame_empty = false → inp.ids = [] →
        track_aruco_targets solver rodr inp s = (TrackOutcome.noTargets, s))
    ∧ (∀ (solver : Solver) (rodr : Rodrigues) (inp : FrameInput) (s : TrackingState),
        inp.frame_empty = false → inp.ids ≠ [] →
        (∀ i ∈ inp.ids, corners_for i = none) →
        (∀ c ∈ inp.corners, c.length = 4) →
        inp.corners.length = inp.ids.length →
        fiducial_corners inp.ids = []
          ∧ track_aruco_targets solver rodr inp s = (TrackOutcome.correspondenceMismatch, s)) := by
  constructor
  · intro solver rodr inp s h1 h2
    simp [track_aruco_targets, h1, h2]
  · intro solver rodr inp s h1 h2 hun h4 hlen
    have hfid : inp.ids.filterMap (fun i => corners_for i) = [] :=
      List.filterMap_eq_nil_iff.mpr hun
    have hfide : fiducial_corners inp.ids = [] := by
      unfold fiducial_corners
      rw [hfid]
      rfl
    have hne : inp.ids.length ≠ 0 := by
      intro h0
      rw [List.length_eq_zero] at h0
      exact h2 h0
    have hflat : (flat_corners inp.corners).length = 4 * inp.ids.length := by
      rw [flat_corners_length inp.corners h4, hlen]
    have hmm : (fiducial_corners inp.ids).length ≠ (flat_corners inp.corners).length := by
      rw [hfide, hflat]
      simp only [List.length_nil]
      omega
    exact ⟨hfide, by simp [track_aruco_targets, h1, hne, hmm]⟩

/-- Witness for C6 (amended): the zero-detection frame and the
all-unregistered frame, both from the zero-pose state. -/
theorem c6_amended_outcomes_witness :
    track_aruco_targets constSolver constRodr ⟨false, [], []⟩ s0 = (TrackOutcome.noTargets, s0)
    ∧ (fiducial_corners [99] = []
       ∧ track_aruco_targets constSolver constRodr ⟨false, [99], [testCorners]⟩ s0
           = (TrackOutcome.correspondenceMismatch, s0)) :=
  ⟨c6_amended_outcomes.1 constSolver constRodr ⟨false, [], []⟩ s0 rfl rfl,
   c6_amended_outcomes.2 constSolver constRodr ⟨false, [99], [testCorners]⟩ s0 rfl
     (by decide) (by decide) (by decide) rfl⟩

/-- C7: every registered identifier maps to exactly the 4 corners of the
planar (y = 0) square of side `FIDUCIAL_SIZE` centred at `(x_offset, 0, 0)`,
in the order bottom-right, bottom-left, top-left, top-right; every identifier
with no registry entry maps to `none` rather than failing. -/
theorem c7_corners_for_contract :
    (∀ f ∈ FIDUCIAL_POSITIONS,
        corners_for f.id =
          some [⟨f.x_offset + FIDUCIAL_SIZE / 2, 0, FIDUCIAL_SIZE / 2⟩,
                ⟨f.x_offset - FIDUCIAL_SIZE / 2, 0, FIDUCIAL_SIZE / 2⟩,
                ⟨f.x_offset - FIDUCIAL_SIZE / 2, 0, -(FIDUCIAL_SIZE / 2)⟩,
                ⟨f.x_offset + FIDUCIAL_SIZE / 2, 0, -(FIDUCIAL_SIZE / 2)⟩])
    ∧ ∀ i : ℤ, (∀ f ∈ FIDUCIAL_POSITIONS, f.id ≠ i) → corners_for i = none := by
  constructor
  · intro f hf
    fin_cases hf <;> rfl
  · intro i h
    unfold corners_for
    have hn : FIDUCIAL_POSITIONS.find? (fun f => f.id == i) = none := by
      rw [List.find?_eq_none]
      intro f hf
      simpa using h f hf
    rw [hn]
    rfl

/-- Witness for C7 at the registered id 2 and the unregistered id 99. -/
theorem c7_corners_for_contract_witness :
    corners_for 2 =
      some [⟨105 + FIDUCIAL_SIZE / 2 + FIDUCIAL_SIZE / 2, 0, FIDUCIAL_SIZE / 2⟩,
            ⟨105 + FIDUCIAL_SIZE / 2 - FIDUCIAL_SIZE / 2, 0, FIDUCIAL_SIZE / 2⟩,
            ⟨105 + FIDUCIAL_SIZE / 2 - FIDUCIAL_SIZE / 2, 0, -(FIDUCIAL_SIZE / 2)⟩,
            ⟨105 + FIDUCIAL_SIZE / 2 + FIDUCIAL_SIZE / 2, 0, -(FIDUCIAL_SIZE / 2)⟩]
    ∧ corners_for 99 = none :=
  ⟨c7_corners_for_contract.1 ⟨2, 105 + FIDUCIAL_SIZE / 2⟩ (by simp [FIDUCIAL_POSITIONS]),
   c7_corners_for_contract.2 99 (by decide)⟩

/-- C8: whenever the controller reaches the solve call, the 3-D and 2-D
argument lists have equal length; under the detector contract (one corner
list per identifier, 4 corners each) that common length is at least 4, and
the frame's result is exactly the solve stage applied to those two lists —
the solver is never invoked with fewer than 4 correspondences. -/
theorem c8_solver_preconditions (inp : FrameInput) (w : List Point3d) (i2 : List Point2f)
    (hlen : inp.corners.length = inp.ids.length)
    (h4 : ∀ c ∈ inp.corners, c.length = 4)
    (hs : solve_args inp = some (w, i2)) :
    w.length = i2.length ∧ 4 ≤ i2.length
    ∧ ∀ (solver : Solver) (rodr : Rodrigues) (s : TrackingState),
        track_aruco_targets solver rodr inp s = solve_and_publish solver rodr w i2 s := by
  have hs0 := hs
  unfold solve_args at hs
  by_cases h1 : inp.frame_empty
  · simp [h1] at hs
  · by_cases h2 : inp.ids.length = 0
    · simp [h1, h2] at hs
    · by_cases h3 : (fiducial_corners inp.ids).length ≠ (flat_corners inp.corners).length
      · simp [h1, h2, h3] at hs
      · simp [h1, h2, h3] at hs
        obtain ⟨hw, hi⟩ := hs
        have heq : (fiducial_corners inp.ids).length = (flat_corners inp.corners).length := by
          simpa using h3
        have hflat : (flat_corners inp.corners).length = 4 * inp.ids.length := by
          rw [flat_corners_length inp.corners h4, hlen]
        refine ⟨?_, ?_, fun solver rodr s => track_reaches_solve hs0 solver rodr s⟩
        · rw [← hw, ← hi]; exact heq
        · rw [← hi, hflat]
          have hone : 1 ≤ inp.ids.length := Nat.one_le_iff_ne_zero.mpr h2
          omega

/-- Witness for C8 at the registered id 1 with one 4-corner detection. -/
theorem c8_solver_preconditions_witness :
    (fiducial_corners [1]).length = (flat_corners [testCorners]).length
    ∧ 4 ≤ (flat_corners [testCorners]).length :=
  ⟨(c8_solver_preconditions ⟨false, [1], [testCorners]⟩ (fiducial_corners [1])
      (flat_corners [testCorners]) rfl (by decide) rfl).1,
   (c8_solver_preconditions ⟨false, [1], [testCorners]⟩ (fiducial_corners [1])
      (flat_corners [testCorners]) rfl (by decide) rfl).2.1⟩

/-- Re-running the solve-and-publish tail from the state it produced yields
the same outcome and state: its result does not depend on the previous
transform or on the previous buffers. -/
theorem solve_and_publish_rerun (solver : Solver) (rodr : Rodrigues) (w : List Point3d)
    (i2 : List Point2f) (s : TrackingState) :
    solve_and_publish solver rodr w i2 ((solve_and_publish solver rodr w i2 s).2)
      = solve_and_publish solver rodr w i2 s := by
  rcases hr : (solver w i2).retval with _ | b
  · simp [solve_and_publish, hr]
  · cases b
    · simp [solve_and_publish, hr]
    · simp [solve_and_publish, hr, publish_transform, DEBUG_POINTS]

/-- C9: feeding the same frame input, the same solver oracle and the same
Rodrigues oracle through the controller twice in a row reproduces the same
outcome and the same state — in particular the same published camera
transform: nothing feeds back beyond the sticky last-good pose. -/
theorem c9_rerun_reproduces (solver : Solver) (rodr : Rodrigues) (inp : FrameInput)
    (s : TrackingState) :
    track_aruco_targets solver rodr inp ((track_aruco_targets solver rodr inp s).2)
      = track_aruco_targets solver rodr inp s := by
  rcases track_cases solver rodr inp s with ⟨h1, he⟩ | ⟨h1, h2, he⟩ | ⟨h1, h2, h3, he⟩ | ⟨h1, h2, h3, he⟩
  · rw [he]; exact he
  · rw [he]; exact he
  · rw [he]; exact he
  · have he2 : ∀ s3 : TrackingState,
        track_aruco_targets solver rodr inp s3
          = solve_and_publish solver rodr (fiducial_corners inp.ids) (flat_corners inp.corners) s3 := by
      intro s3
      simp [track_aruco_targets, h1, h2, h3]
    rw [he, he2 ((solve_and_publish solver rodr (fiducial_corners inp.ids)
      (flat_corners inp.corners) s).2)]
    exact solve_and_publish_rerun solver rodr _ _ s

/-- C10: a frame abandoned before the solve stage — empty frame, zero
detections, or corner-count mismatch — leaves the persisted rotation and
translation buffers exactly as they were. -/
theorem c10_buffers_untouched_presolve (solver : Solver) (rodr : Rodrigues)
    (inp : FrameInput) (s : TrackingState) (o : TrackOutcome) (s2 : TrackingState)
    (h : track_aruco_targets solver rodr inp s = (o, s2))
    (ho : o = TrackOutcome.acquisitionEmpty ∨ o = TrackOutcome.noTargets
        ∨ o = TrackOutcome.correspondenceMismatch) :
    s2.latest_rotation = s.latest_rotation ∧ s2.latest_translation = s.latest_translation := by
  rcases track_cases solver rodr inp s with ⟨h1, he⟩ | ⟨h1, h2, he⟩ | ⟨h1, h2, h3, he⟩ | ⟨h1, h2, h3, he⟩
  · rw [he] at h
    injection h with hA hB
    subst hB
    exact ⟨rfl, rfl⟩
  · rw [he] at h
    injection h with hA hB
    subst hB
    exact ⟨rfl, rfl⟩
  · rw [he] at h
    injection h with hA hB
    subst hB
    exact ⟨rfl, rfl⟩
  · rcases solve_and_publish_cases solver rodr (fiducial_corners inp.ids) (flat_corners inp.corners) s
      with ⟨hr, hp⟩ | ⟨hr, hp⟩ | ⟨hr, hp⟩
    all_goals
      rw [he, hp] at h
      injection h with hA hB
      rcases ho with h' | h' | h' <;> rw [← hA] at h' <;> simp at h'

/-- Witness for C10 at an empty frame: both buffers unchanged. -/
theorem c10_buffers_untouched_presolve_witness :
    ((track_aruco_targets constSolver constRodr ⟨true, [], []⟩ s0).2).latest_rotation
        = s0.latest_rotation
    ∧ ((track_aruco_targets constSolver constRodr ⟨true, [], []⟩ s0).2).latest_translation
        = s0.latest_translation :=
  c10_buffers_untouched_presolve constSolver constRodr ⟨true, [], []⟩ s0
    (track_aruco_targets constSolver constRodr ⟨true, [], []⟩ s0).1
    (track_aruco_targets constSolver constRodr ⟨true, [], []⟩ s0).2
    rfl (Or.inl rfl)

end ARPV
